import Mathlib

/-!
Shallow embedding of `orchestrator/main.py`: the provisioning and
deprovisioning orchestration of the WooCommerce store platform.

External effects (subprocess invocations) are modelled by an oracle: a
list of `CmdResult`s, the i-th entry being the outcome of the i-th
external invocation of the run.  Every invocation is recorded in a trace
of command lines, so theorems can speak about which external operations
were attempted and in which order.  `json.loads` is modelled by a
`String → Option Json` parameter (`none` models a parse exception, which
the source catches), and the duck-typed dictionary traversal of
`ingress_host_exists` is modelled faithfully, including the Python
exceptions (`AttributeError`, `TypeError`) that escape when the parsed
payload does not have the expected shape.
-/

/-- Result of one external invocation, as returned by `run_command`
(main.py lines 71-84): return code plus captured, stripped stdout and
stderr.  Stripping and folding a launch exception into `(254, "", msg)`
act on data produced by the external process, so they are part of the
oracle. -/
structure CmdResult where
  rc : Int
  stdout : String
  stderr : String
deriving DecidableEq

/-- State threaded through the embedding: the oracle of external-call
results and the trace of command lines issued so far. -/
structure ExecState where
  oracle : List CmdResult
  calls : List (List String)
deriving DecidableEq

/-- The result the oracle assigns to the i-th external invocation; past
the end of the list the invocation is deemed unlaunchable (the `except`
branch of `run_command`, exit code 254). -/
def oracleAt (o : List CmdResult) (i : Nat) : CmdResult :=
  o.getD i ⟨254, "", ""⟩

/-- `run_command` (main.py line 71): consult the oracle for the result of
the next invocation and record the command line in the trace.  The `cwd`
and `timeout` arguments of the source influence only the external
process, hence the oracle, and are not modelled. -/
def run_command (cmd : List String) (s : ExecState) : CmdResult × ExecState :=
  (oracleAt s.oracle s.calls.length, ⟨s.oracle, s.calls ++ [cmd]⟩)

/-- Python values as produced by `json.loads`. -/
inductive Json where
  | null
  | bool (b : Bool)
  | num (n : Int)
  | str (s : String)
  | arr (xs : List Json)
  | obj (kvs : List (String × Json))

/-- Python exceptions that can escape the ingress scan. -/
inductive PyErr where
  | attributeError
  | typeError
  | keyError
deriving DecidableEq

/-- Python `d.get(k, default)`: key lookup with a default on a dict,
`AttributeError` on any non-dict value. -/
def pyGetD (j : Json) (k : String) (d : Json) : Except PyErr Json :=
  match j with
  | .obj kvs => .ok (((kvs.find? (fun kv => kv.1 == k)).map (·.2)).getD d)
  | _ => .error .attributeError

/-- Python `for x in v`: the element sequence of an iterable value
(`TypeError` on non-iterables; iterating a string yields its characters,
iterating a dict yields its keys). -/
def pyIter : Json → Except PyErr (List Json)
  | .arr xs => .ok xs
  | .str s => .ok (s.data.map (fun c => .str (String.singleton c)))
  | .obj kvs => .ok (kvs.map (fun kv => .str kv.1))
  | _ => .error .typeError

/-- Python truthiness of a json-decoded value. -/
def pyTruthy : Json → Bool
  | .null => false
  | .bool b => b
  | .num n => n != 0
  | .str s => s != ""
  | .arr xs => !xs.isEmpty
  | .obj kvs => !kvs.isEmpty

/-- Python `v == host` for a string `host`: among json-decoded values,
only a string with the same characters compares equal. -/
def pyEqStr (v : Json) (s : String) : Bool :=
  match v with
  | .str t => t == s
  | _ => false

/-- Python `str(v)` as interpolated by an f-string (exact for the scalar
values that occur in practice; container values are abbreviated). -/
def pyStr : Json → String
  | .null => "None"
  | .bool true => "True"
  | .bool false => "False"
  | .num n => toString n
  | .str s => s
  | .arr _ => "[...]"
  | .obj _ => "\x7b...\x7d"

/-- Python `s.lower()`: character-wise lowercasing (ASCII range, which
covers every character the orchestrator compares). -/
def pyLower (s : String) : String := String.mk (s.data.map Char.toLower)

/-- Python `s.strip()`: drop leading and trailing whitespace. -/
def pyStrip (s : String) : String :=
  String.mk (((s.data.dropWhile Char.isWhitespace).reverse.dropWhile
    Char.isWhitespace).reverse)

/-- Python `a or b` on strings: `a` when non-empty, else `b`. -/
def pyOr (a b : String) : String := if a = "" then b else a

/-- Python `s[:n]`: the first `n` characters of `s`. -/
def pyTake (s : String) (n : Nat) : String := String.mk (s.data.take n)

/-- Python `pat in s` on character lists: `pat` occurs contiguously. -/
def listContains (pat : List Char) : List Char → Bool
  | [] => pat.isEmpty
  | c :: rest => pat.isPrefixOf (c :: rest) || listContains pat rest

/-- Python `"already exists" in s.lower()` (main.py lines 145 and 160);
lowercasing is character-wise as in `str.lower` (ASCII range). -/
def containsAE (s : String) : Bool :=
  listContains "already exists".data (s.data.map Char.toLower)

/-- The dict `ingress_host_exists` returns on a conflict: the values at
its `namespace` and `ingress` keys (arbitrary json values, since they
come from `.get` with a default). -/
structure Conflict where
  ns : Json
  ingress : Json

/-- The inner rule loop of `ingress_host_exists` (main.py lines 104-106):
first rule whose `host` entry equals the query. -/
def scanRules (host : String) (ns name : Json) : List Json → Except PyErr (Option Conflict)
  | [] => .ok none
  | r :: rest =>
    match pyGetD r "host" .null with
    | .error e => .error e
    | .ok v =>
      if pyEqStr v host then .ok (some ⟨ns, name⟩)
      else scanRules host ns name rest

/-- The item loop of `ingress_host_exists` (main.py lines 100-107).  The
`metadata` lookup happens twice per item, as in the source. -/
def scanItems (host : String) : List Json → Except PyErr (Option Conflict)
  | [] => .ok none
  | item :: rest =>
    match pyGetD item "metadata" (.obj []) with
    | .error e => .error e
    | .ok md =>
      match pyGetD md "namespace" (.str "") with
      | .error e => .error e
      | .ok ns =>
        match pyGetD item "metadata" (.obj []) with
        | .error e => .error e
        | .ok md2 =>
          match pyGetD md2 "name" (.str "") with
          | .error e => .error e
          | .ok name =>
            match pyGetD item "spec" (.obj []) with
            | .error e => .error e
            | .ok sp =>
              match pyGetD sp "rules" (.arr []) with
              | .error e => .error e
              | .ok rules0 =>
                let rules := if pyTruthy rules0 then rules0 else .arr []
                match pyIter rules with
                | .error e => .error e
                | .ok rlist =>
                  match scanRules host ns name rlist with
                  | .error e => .error e
                  | .ok (some c) => .ok (some c)
                  | .ok none => scanItems host rest

/-- Pure part of `ingress_host_exists` (main.py lines 86-107), applied to
the result of the route-listing call.  `parse` models `json.loads`;
`none` models a parse exception (caught at line 97). -/
def conflictCheck (host : String) (parse : String → Option Json) (res : CmdResult) :
    Except PyErr (Option Conflict) :=
  if res.rc ≠ 0 ∨ res.stdout = "" then .ok none
  else
    match parse res.stdout with
    | none => .ok none
    | some payload =>
      match pyGetD payload "items" (.arr []) with
      | .error e => .error e
      | .ok items =>
        match pyIter items with
        | .error e => .error e
        | .ok ilist => scanItems host ilist

/-- Command line of the route-listing call (main.py line 91). -/
def ingressListCmd : List String := ["kubectl", "get", "ingress", "-A", "-o", "json"]

/-- `ingress_host_exists` (main.py line 86): list all ingresses and scan
for the requested host. -/
def ingress_host_exists (host : String) (parse : String → Option Json) (s : ExecState) :
    Except PyErr (Option Conflict) × ExecState :=
  let rs := run_command ingressListCmd s
  (conflictCheck host parse rs.1, rs.2)

/-- One entry of the in-memory `stores` dict (main.py lines 123-132).
The field `ns` models the `namespace` key (a Lean keyword). -/
structure StoreRecord where
  id : String
  store_name : String
  ns : String
  domain : String
  status : String
  helm_release : String
  environment : String
  created_at : String
deriving DecidableEq

/-- The in-memory registry `stores` (main.py line 68): an association
list with Python-dict semantics (update in place, insert at the end). -/
abbrev Stores := List (String × StoreRecord)

/-- Python `stores[k] = v`. -/
def putStore (m : Stores) (k : String) (v : StoreRecord) : Stores :=
  if m.any (fun kv => kv.1 == k) then
    m.map (fun kv => if kv.1 == k then (k, v) else kv)
  else m ++ [(k, v)]

/-- Python `stores[k]` lookup / `k in stores` membership. -/
def getStore (m : Stores) (k : String) : Option StoreRecord :=
  (m.find? (fun kv => kv.1 == k)).map (·.2)

/-- Python `stores[k]["status"] = st`: in-place mutation of the record. -/
def setStatus (m : Stores) (k : String) (st : String) : Stores :=
  m.map (fun kv => if kv.1 == k then (kv.1, { kv.2 with status := st }) else kv)

/-- Python `del stores[k]`. -/
def delStore (m : Stores) (k : String) : Stores :=
  m.filter (fun kv => kv.1 != k)

/-- The validated provision request body (`StoreRequest`, main.py line 52). -/
structure StoreRequest where
  store_name : String
  domain : String
  environment : String
deriving DecidableEq

/-- The filesystem paths computed once at startup (`_init_paths`,
main.py lines 26-49); the filesystem is external, so they are inputs. -/
structure Paths where
  repo_root : String
  chart_path : String
  values_local : String
  values_prod : String
deriving DecidableEq

/-- Outcome of one `create_store` call: a returned record, an
`HTTPException(status_code, detail)`, or an unhandled Python exception
(which FastAPI would surface as a generic 500). -/
inductive CreateOutcome where
  | ok (rec : StoreRecord)
  | httpError (status : Nat) (detail : String)
  | raised (e : PyErr)
deriving DecidableEq

/-- Command line of namespace creation (main.py line 144). -/
def nsCreateCmd (ns : String) : List String := ["kubectl", "create", "namespace", ns]

/-- Command line of secret creation (main.py lines 154-159). -/
def secretCreateCmd (ns root_pw user_pw : String) : List String :=
  ["kubectl", "create", "secret", "generic", ns ++ "-db-secret",
   "--from-literal=root-password=" ++ root_pw,
   "--from-literal=user-password=" ++ user_pw,
   "--namespace=" ++ ns]

/-- Command line of the chart installation (main.py lines 169-177). -/
def helmInstallCmd (p : Paths) (release ns vfile domain : String) : List String :=
  ["helm", "install", release, p.chart_path,
   "--namespace", ns, "--values", vfile,
   "--set", "ingress.host=" ++ domain,
   "--set", "storeName=" ++ ns,
   "--wait", "--timeout", "10m"]

/-- Command line of the release uninstall (main.py lines 182 and 204). -/
def helmUninstallCmd (release ns : String) : List String :=
  ["helm", "uninstall", release, "-n", ns]

/-- Command line of namespace deletion (main.py lines 183 and 206). -/
def nsDeleteCmd (ns : String) : List String := ["kubectl", "delete", "namespace", ns]

/-- The failure test of the idempotent creation steps (main.py lines 145
and 160): non-zero exit and no case-insensitive occurrence of the marker
text in `stderr or stdout`. -/
def stepFails (r : CmdResult) : Bool :=
  decide (r.rc ≠ 0) && !containsAE (pyOr r.stderr r.stdout)

/-- The derived namespace / release name (main.py lines 112, 120-121). -/
def nsOf (req : StoreRequest) (store_id : String) : String :=
  pyLower (pyStrip req.store_name) ++ "-" ++ store_id

/-- The record inserted into the registry at the start of a provision
call (main.py lines 123-132). -/
def recOf (req : StoreRequest) (store_id created_at : String) : StoreRecord :=
  ⟨store_id, pyLower (pyStrip req.store_name), nsOf req store_id, pyStrip req.domain,
   "Provisioning", nsOf req store_id, pyLower (pyStrip req.environment), created_at⟩

/-- The values-file choice (main.py line 165). -/
def valuesFileOf (p : Paths) (req : StoreRequest) : String :=
  if pyLower (pyStrip req.environment) = "local" then p.values_local else p.values_prod

/-- `create_store` (main.py lines 110-190).  Externally produced values
are parameters: `store_id` (the 8-character uuid4 prefix, line 119),
`created_at` (line 122), the two generated passwords (lines 151-152),
the json parser, and the oracle inside the `ExecState`. -/
def create_store (p : Paths) (req : StoreRequest)
    (store_id created_at root_pw user_pw : String)
    (parse : String → Option Json) (stores : Stores) (s : ExecState) :
    CreateOutcome × Stores × ExecState :=
  let store_name := pyLower (pyStrip req.store_name)
  let domain := pyStrip req.domain
  let env := pyLower (pyStrip req.environment)
  if store_name = "" ∨ domain = "" then
    (.httpError 400 "store_name and domain are required", stores, s)
  else
    let ns := store_name ++ "-" ++ store_id
    let release := store_name ++ "-" ++ store_id
    let stores := putStore stores store_id
      ⟨store_id, store_name, ns, domain, "Provisioning", release, env, created_at⟩
    let cs := ingress_host_exists domain parse s
    match cs.1 with
    | .error e => (.raised e, stores, cs.2)
    | .ok (some c) =>
      (.httpError 409 ("ingress host conflict: host '" ++ domain ++ "' already used in "
          ++ pyStr c.ns ++ "/" ++ pyStr c.ingress),
       setStatus stores store_id "Failed", cs.2)
    | .ok none =>
      let r1s := run_command (nsCreateCmd ns) cs.2
      if stepFails r1s.1 then
        (.httpError 500 ("Namespace creation failed: " ++ pyOr r1s.1.stderr r1s.1.stdout),
         setStatus stores store_id "Failed", r1s.2)
      else
        let r2s := run_command (secretCreateCmd ns root_pw user_pw) r1s.2
        if stepFails r2s.1 then
          (.httpError 500 ("Secret creation failed: " ++ pyOr r2s.1.stderr r2s.1.stdout),
           setStatus stores store_id "Failed", r2s.2)
        else
          let values_file := if env = "local" then p.values_local else p.values_prod
          let r3s := run_command (helmInstallCmd p release ns values_file domain) r2s.2
          if r3s.1.rc ≠ 0 then
            let c1 := run_command (helmUninstallCmd release ns) r3s.2
            let c2 := run_command (nsDeleteCmd ns) c1.2
            (.httpError 500 ("helm install failed: "
                ++ pyTake (pyOr r3s.1.stderr r3s.1.stdout) 1000),
             setStatus stores store_id "Failed", c2.2)
          else
            let stores := setStatus stores store_id "Ready"
            (match getStore stores store_id with
             | some rec => .ok rec
             | none => .raised .keyError,
             stores, r3s.2)

/-- Outcome of one `delete_store` call (main.py lines 196-210). -/
inductive DeleteOutcome where
  | notFound
  | deleted (release ns : String)
  | uninstallError (helm_err : String) (krc : Int) (kout kerr : String)
deriving DecidableEq

/-- `delete_store` (main.py lines 196-210). -/
def delete_store (store_id : String) (stores : Stores) (s : ExecState) :
    DeleteOutcome × Stores × ExecState :=
  match getStore stores store_id with
  | none => (.notFound, stores, s)
  | some meta =>
    let ns := meta.ns
    let release := meta.helm_release
    let r1s := run_command (helmUninstallCmd release ns) s
    let r2s := run_command (nsDeleteCmd ns) r1s.2
    let stores := delStore stores store_id
    if r1s.1.rc ≠ 0 then
      (.uninstallError (pyTake (pyOr r1s.1.stderr r1s.1.stdout) 1000)
         r2s.1.rc (pyTake r2s.1.stdout 1000) (pyTake r2s.1.stderr 1000),
       stores, r2s.2)
    else
      (.deleted release ns, stores, r2s.2)

/-! ### Spec-side view of the route listing, for the refinement of the
conflict checker: a well-formed listing and its json encoding. -/

/-- Spec-side view of one ingress rule: an optional host string. -/
structure RouteRule where
  host : Option String
deriving DecidableEq

/-- Spec-side view of one ingress item: namespace, name, rules. -/
structure RouteItem where
  ns : String
  name : String
  rules : List RouteRule
deriving DecidableEq

/-- Json encoding of a rule (the `host` key present iff a host is set). -/
def encodeRule (r : RouteRule) : Json :=
  match r.host with
  | none => .obj []
  | some h => .obj [("host", .str h)]

/-- Json encoding of one ingress item, in the shape `kubectl get ingress
-o json` produces. -/
def encodeItem (it : RouteItem) : Json :=
  .obj [("metadata", .obj [("namespace", .str it.ns), ("name", .str it.name)]),
        ("spec", .obj [("rules", .arr (it.rules.map encodeRule))])]

/-- Json encoding of a whole listing. -/
def encodeListing (items : List RouteItem) : Json :=
  .obj [("items", .arr (items.map encodeItem))]

/-- Spec-side first-match semantics: the first item having a rule whose
host equals the query exactly (case-sensitively). -/
def firstMatch (items : List RouteItem) (host : String) : Option Conflict :=
  match items with
  | [] => none
  | it :: rest =>
    if it.rules.any (fun r => r.host == some host) then
      some ⟨.str it.ns, .str it.name⟩
    else firstMatch rest host

/-! ### Concrete fixtures used by witnesses and counterexamples. -/

/-- A fixed set of startup paths. -/
def pC : Paths :=
  ⟨"/repo", "/repo/helm/woocommerce", "/repo/values-local.yaml",
   "/repo/values-prod.yaml"⟩

/-- A json parser that always fails (any invalid payload). -/
def parseNone : String → Option Json := fun _ => none

/-- Request used by provision-path witnesses. -/
def reqC : StoreRequest := ⟨" Acme ", "shop1.example.com", "local"⟩

/-- Oracle: listing call fails, namespace and secret succeed, chart
install fails, both cleanup calls fail too. -/
def oHelmFail : List CmdResult :=
  [⟨1, "", ""⟩, ⟨0, "namespace created", ""⟩, ⟨0, "secret created", ""⟩,
   ⟨1, "", "install boom"⟩, ⟨1, "", "uninstall boom"⟩, ⟨1, "", "delete boom"⟩]

/-- Request used by the conflict-path witness. -/
def reqC2 : StoreRequest := ⟨"beta", "shop2.example.com", "prod"⟩

/-- Oracle: the listing call succeeds with output "LIST". -/
def oConflict : List CmdResult := [⟨0, "LIST", ""⟩]

/-- Parser fixture: "LIST" decodes to a one-item listing that claims
`shop2.example.com`. -/
def parseConflict : String → Option Json := fun s =>
  if s = "LIST" then
    some (encodeListing [⟨"default", "web", [⟨some "shop2.example.com"⟩]⟩])
  else none

/-- Oracle for the combined-output counterexample: the namespace creation
step exits non-zero with the marker text on stdout but a different
message on stderr. -/
def oCombined : List CmdResult :=
  [⟨1, "", ""⟩,
   ⟨1, "Error from server: namespaces thing already exists", "permission denied"⟩]

/-- A 1001-character diagnostic, longer than the documented 1000-character
truncation bound. -/
def bigErr : String := String.mk (List.replicate 1001 'x')

/-- Oracle for the unbounded-detail counterexample: namespace creation
fails with the 1001-character stderr. -/
def oBigErr : List CmdResult := [⟨1, "", ""⟩, ⟨1, "", bigErr⟩]

/-- Oracle for the secret-path unbounded-detail counterexample: namespace
creation succeeds, then secret creation fails with the 1001-character
stderr. -/
def oBigErrSecret : List CmdResult :=
  [⟨1, "", ""⟩, ⟨0, "", ""⟩, ⟨1, "", bigErr⟩]

/-- Oracle where every external call succeeds (the listing call returns
empty output, which the checker treats as no conflict). -/
def oAllOk : List CmdResult :=
  [⟨0, "", ""⟩, ⟨0, "", ""⟩, ⟨0, "", ""⟩, ⟨0, "", ""⟩]

/-- Requests used by the id-collision counterexample. -/
def reqAlpha : StoreRequest := ⟨"alpha", "alpha.example.com", "local"⟩

/-- Second request of the id-collision counterexample, a different store. -/
def reqBeta : StoreRequest := ⟨"beta", "beta.example.com", "local"⟩

/-- A registry entry used by deprovision witnesses. -/
def recC : StoreRecord :=
  ⟨"idA", "acme", "acme-idA", "shop1.example.com", "Ready", "acme-idA",
   "local", "t0"⟩

/-- A registry holding exactly `recC`. -/
def storesC : Stores := [("idA", recC)]

/-- Oracle for the partial-failure deprovision witness: uninstall fails,
namespace deletion succeeds. -/
def oUninstallFail : List CmdResult :=
  [⟨1, "", "release not loaded"⟩, ⟨0, "namespace deleted", ""⟩]

/-- Oracle for the benign namespace-failure witness: non-zero exit with
the marker text on stdout and empty stderr. -/
def oNsBenign : List CmdResult :=
  [⟨1, "", ""⟩, ⟨1, "namespaces thing already exists", ""⟩,
   ⟨0, "", ""⟩, ⟨0, "", ""⟩]

/-- Oracle for the benign secret-failure witness. -/
def oSecretBenign : List CmdResult :=
  [⟨1, "", ""⟩, ⟨0, "", ""⟩, ⟨1, "secret thing already exists", ""⟩,
   ⟨0, "", ""⟩]

/-- Oracle for the hard secret-failure witness. -/
def oSecretFail : List CmdResult :=
  [⟨1, "", ""⟩, ⟨0, "", ""⟩, ⟨1, "", "secret boom"⟩]

/-- Parser fixture decoding "[1, 2, 3]" to a json array (valid json whose
top level is not an object). -/
def parseArr : String → Option Json := fun s =>
  if s = "[1, 2, 3]" then some (.arr [.num 1, .num 2, .num 3]) else none

/-- Request whose environment normalizes to "prod". -/
def reqProd : StoreRequest := ⟨"gamma", "shop3.example.com", " PROD "⟩

/-! ### Registry lemmas -/

theorem find?_map_upd_self (m : Stores) (k : String) (v : StoreRecord)
    (h : m.any (fun kv => kv.1 == k) = true) :
    (m.map (fun kv => if kv.1 == k then (k, v) else kv)).find? (fun kv => kv.1 == k)
      = some (k, v) := by
  induction m with
  | nil => simp at h
  | cons a rest ih =>
    simp only [List.map_cons]
    by_cases ha : (a.1 == k) = true
    · rw [if_pos ha, List.find?_cons_of_pos (p := fun kv : String × StoreRecord => kv.1 == k) _ (by simp)]
    · rw [if_neg ha, List.find?_cons_of_neg (p := fun kv : String × StoreRecord => kv.1 == k) _ (by simpa using ha)]
      simp only [List.any_cons, ha, Bool.false_or] at h
      exact ih h

theorem find?_append_single_self (m : Stores) (k : String) (v : StoreRecord)
    (h : m.any (fun kv => kv.1 == k) = false) :
    (m ++ [(k, v)]).find? (fun kv => kv.1 == k) = some (k, v) := by
  induction m with
  | nil =>
    rw [List.nil_append, List.find?_cons_of_pos (p := fun kv : String × StoreRecord => kv.1 == k) _ (by simp)]
  | cons a rest ih =>
    simp only [List.any_cons, Bool.or_eq_false_iff] at h
    rw [List.cons_append,
        List.find?_cons_of_neg (p := fun kv : String × StoreRecord => kv.1 == k) _ (by simp [h.1])]
    exact ih h.2

theorem find?_map_upd_ne (m : Stores) (k k' : String) (v : StoreRecord)
    (hk : k' ≠ k) :
    (m.map (fun kv => if kv.1 == k then (k, v) else kv)).find? (fun kv => kv.1 == k')
      = m.find? (fun kv => kv.1 == k') := by
  induction m with
  | nil => rfl
  | cons a rest ih =>
    simp only [List.map_cons]
    by_cases ha : (a.1 == k) = true
    · have hak : a.1 = k := by simpa using ha
      rw [if_pos ha,
          List.find?_cons_of_neg (p := fun kv : String × StoreRecord => kv.1 == k') _ (by simp [Ne.symm hk]),
          List.find?_cons_of_neg (p := fun kv : String × StoreRecord => kv.1 == k') _ (by simp [hak, Ne.symm hk])]
      exact ih
    · rw [if_neg ha]
      by_cases hb : (a.1 == k') = true
      · rw [List.find?_cons_of_pos (p := fun kv : String × StoreRecord => kv.1 == k') _ hb,
            List.find?_cons_of_pos (p := fun kv : String × StoreRecord => kv.1 == k') _ hb]
      · rw [List.find?_cons_of_neg (p := fun kv : String × StoreRecord => kv.1 == k') _ (by simpa using hb),
            List.find?_cons_of_neg (p := fun kv : String × StoreRecord => kv.1 == k') _ (by simpa using hb)]
        exact ih

theorem find?_append_single_ne (m : Stores) (k k' : String) (v : StoreRecord)
    (hk : k' ≠ k) :
    (m ++ [(k, v)]).find? (fun kv => kv.1 == k') = m.find? (fun kv => kv.1 == k') := by
  induction m with
  | nil =>
    rw [List.nil_append,
        List.find?_cons_of_neg (p := fun kv : String × StoreRecord => kv.1 == k') _ (by simp [Ne.symm hk])]
  | cons a rest ih =>
    by_cases hb : (a.1 == k') = true
    · rw [List.cons_append, List.find?_cons_of_pos (p := fun kv : String × StoreRecord => kv.1 == k') _ hb,
          List.find?_cons_of_pos (p := fun kv : String × StoreRecord => kv.1 == k') _ hb]
    · rw [List.cons_append,
          List.find?_cons_of_neg (p := fun kv : String × StoreRecord => kv.1 == k') _ (by simpa using hb),
          List.find?_cons_of_neg (p := fun kv : String × StoreRecord => kv.1 == k') _ (by simpa using hb)]
      exact ih

theorem getStore_putStore_self (m : Stores) (k : String) (v : StoreRecord) :
    getStore (putStore m k v) k = some v := by
  unfold getStore putStore
  by_cases h : m.any (fun kv => kv.1 == k)
  · rw [if_pos h, find?_map_upd_self m k v h]
    rfl
  · rw [if_neg h, find?_append_single_self m k v (by rwa [Bool.not_eq_true] at h)]
    rfl

theorem getStore_putStore_ne (m : Stores) (k k' : String) (v : StoreRecord)
    (hk : k' ≠ k) : getStore (putStore m k v) k' = getStore m k' := by
  unfold getStore putStore
  by_cases h : m.any (fun kv => kv.1 == k)
  · rw [if_pos h, find?_map_upd_ne m k k' v hk]
  · rw [if_neg h, find?_append_single_ne m k k' v hk]

theorem getStore_setStatus_self (m : Stores) (k st : String) :
    getStore (setStatus m k st) k
      = (getStore m k).map (fun r => { r with status := st }) := by
  unfold getStore setStatus
  induction m with
  | nil => rfl
  | cons a rest ih =>
    simp only [List.map_cons]
    by_cases ha : (a.1 == k) = true
    · rw [if_pos ha,
          List.find?_cons_of_pos (p := fun kv : String × StoreRecord => kv.1 == k) _ (by simpa using ha),
          List.find?_cons_of_pos (p := fun kv : String × StoreRecord => kv.1 == k) _ ha]
      rfl
    · rw [if_neg ha,
          List.find?_cons_of_neg (p := fun kv : String × StoreRecord => kv.1 == k) _ (by simpa using ha),
          List.find?_cons_of_neg (p := fun kv : String × StoreRecord => kv.1 == k) _ (by simpa using ha)]
      exact ih

theorem getStore_setStatus_ne (m : Stores) (k k' st : String)
    (hk : k' ≠ k) : getStore (setStatus m k st) k' = getStore m k' := by
  unfold getStore setStatus
  induction m with
  | nil => rfl
  | cons a rest ih =>
    simp only [List.map_cons]
    by_cases ha : (a.1 == k) = true
    · have hak : a.1 = k := by simpa using ha
      rw [if_pos ha,
          List.find?_cons_of_neg (p := fun kv : String × StoreRecord => kv.1 == k') _ (by simp [hak, Ne.symm hk]),
          List.find?_cons_of_neg (p := fun kv : String × StoreRecord => kv.1 == k') _ (by simp [hak, Ne.symm hk])]
      exact ih
    · rw [if_neg ha]
      by_cases hb : (a.1 == k') = true
      · rw [List.find?_cons_of_pos (p := fun kv : String × StoreRecord => kv.1 == k') _ hb,
            List.find?_cons_of_pos (p := fun kv : String × StoreRecord => kv.1 == k') _ hb]
      · rw [List.find?_cons_of_neg (p := fun kv : String × StoreRecord => kv.1 == k') _ (by simpa using hb),
            List.find?_cons_of_neg (p := fun kv : String × StoreRecord => kv.1 == k') _ (by simpa using hb)]
        exact ih

theorem getStore_delStore_self (m : Stores) (k : String) :
    getStore (delStore m k) k = none := by
  unfold getStore delStore
  induction m with
  | nil => rfl
  | cons a rest ih =>
    rw [List.filter_cons]
    by_cases ha : (a.1 == k) = true
    · rw [if_neg (by simp [bne, ha])]
      exact ih
    · rw [if_pos (by simp [bne, ha]),
          List.find?_cons_of_neg (p := fun kv : String × StoreRecord => kv.1 == k) _ (by simpa using ha)]
      exact ih

/-! ### Run lemmas for `create_store`, one per control-flow branch -/

theorem createRun_invalid (p : Paths) (req : StoreRequest)
    (store_id created_at root_pw user_pw : String)
    (parse : String → Option Json) (stores : Stores) (s : ExecState)
    (h : pyLower (pyStrip req.store_name) = "" ∨ pyStrip req.domain = "") :
    create_store p req store_id created_at root_pw user_pw parse stores s =
      (.httpError 400 "store_name and domain are required", stores, s) := by
  simp only [create_store]
  rw [if_pos h]

theorem createRun_raised (p : Paths) (req : StoreRequest)
    (store_id created_at root_pw user_pw : String)
    (parse : String → Option Json) (stores : Stores) (o : List CmdResult)
    (hn : pyLower (pyStrip req.store_name) ≠ "") (hd : pyStrip req.domain ≠ "")
    (e : PyErr)
    (hc : conflictCheck (pyStrip req.domain) parse (oracleAt o 0) = .error e) :
    create_store p req store_id created_at root_pw user_pw parse stores ⟨o, []⟩ =
      (.raised e, putStore stores store_id (recOf req store_id created_at),
       ⟨o, [ingressListCmd]⟩) := by
  simp only [create_store, ingress_host_exists, run_command]
  rw [if_neg (by simp [hn, hd])]
  simp [hc, recOf, nsOf]

theorem createRun_conflict (p : Paths) (req : StoreRequest)
    (store_id created_at root_pw user_pw : String)
    (parse : String → Option Json) (stores : Stores) (o : List CmdResult)
    (hn : pyLower (pyStrip req.store_name) ≠ "") (hd : pyStrip req.domain ≠ "")
    (c : Conflict)
    (hc : conflictCheck (pyStrip req.domain) parse (oracleAt o 0) = .ok (some c)) :
    create_store p req store_id created_at root_pw user_pw parse stores ⟨o, []⟩ =
      (.httpError 409 ("ingress host conflict: host '" ++ pyStrip req.domain
          ++ "' already used in " ++ pyStr c.ns ++ "/" ++ pyStr c.ingress),
       setStatus (putStore stores store_id (recOf req store_id created_at))
         store_id "Failed",
       ⟨o, [ingressListCmd]⟩) := by
  simp only [create_store, ingress_host_exists, run_command]
  rw [if_neg (by simp [hn, hd])]
  simp [hc, recOf, nsOf]

theorem createRun_nsFail (p : Paths) (req : StoreRequest)
    (store_id created_at root_pw user_pw : String)
    (parse : String → Option Json) (stores : Stores) (o : List CmdResult)
    (hn : pyLower (pyStrip req.store_name) ≠ "") (hd : pyStrip req.domain ≠ "")
    (hc : conflictCheck (pyStrip req.domain) parse (oracleAt o 0) = .ok none)
    (h1 : stepFails (oracleAt o 1) = true) :
    create_store p req store_id created_at root_pw user_pw parse stores ⟨o, []⟩ =
      (.httpError 500 ("Namespace creation failed: "
          ++ pyOr (oracleAt o 1).stderr (oracleAt o 1).stdout),
       setStatus (putStore stores store_id (recOf req store_id created_at))
         store_id "Failed",
       ⟨o, [ingressListCmd, nsCreateCmd (nsOf req store_id)]⟩) := by
  simp only [create_store, ingress_host_exists, run_command]
  rw [if_neg (by simp [hn, hd])]
  simp [hc, h1, recOf, nsOf]

theorem createRun_secretFail (p : Paths) (req : StoreRequest)
    (store_id created_at root_pw user_pw : String)
    (parse : String → Option Json) (stores : Stores) (o : List CmdResult)
    (hn : pyLower (pyStrip req.store_name) ≠ "") (hd : pyStrip req.domain ≠ "")
    (hc : conflictCheck (pyStrip req.domain) parse (oracleAt o 0) = .ok none)
    (h1 : stepFails (oracleAt o 1) = false)
    (h2 : stepFails (oracleAt o 2) = true) :
    create_store p req store_id created_at root_pw user_pw parse stores ⟨o, []⟩ =
      (.httpError 500 ("Secret creation failed: "
          ++ pyOr (oracleAt o 2).stderr (oracleAt o 2).stdout),
       setStatus (putStore stores store_id (recOf req store_id created_at))
         store_id "Failed",
       ⟨o, [ingressListCmd, nsCreateCmd (nsOf req store_id),
            secretCreateCmd (nsOf req store_id) root_pw user_pw]⟩) := by
  simp only [create_store, ingress_host_exists, run_command]
  rw [if_neg (by simp [hn, hd])]
  simp [hc, h1, h2, recOf, nsOf]

theorem createRun_helmFail (p : Paths) (req : StoreRequest)
    (store_id created_at root_pw user_pw : String)
    (parse : String → Option Json) (stores : Stores) (o : List CmdResult)
    (hn : pyLower (pyStrip req.store_name) ≠ "") (hd : pyStrip req.domain ≠ "")
    (hc : conflictCheck (pyStrip req.domain) parse (oracleAt o 0) = .ok none)
    (h1 : stepFails (oracleAt o 1) = false)
    (h2 : stepFails (oracleAt o 2) = false)
    (h3 : (oracleAt o 3).rc ≠ 0) :
    create_store p req store_id created_at root_pw user_pw parse stores ⟨o, []⟩ =
      (.httpError 500 ("helm install failed: "
          ++ pyTake (pyOr (oracleAt o 3).stderr (oracleAt o 3).stdout) 1000),
       setStatus (putStore stores store_id (recOf req store_id created_at))
         store_id "Failed",
       ⟨o, [ingressListCmd, nsCreateCmd (nsOf req store_id),
            secretCreateCmd (nsOf req store_id) root_pw user_pw,
            helmInstallCmd p (nsOf req store_id) (nsOf req store_id)
              (valuesFileOf p req) (pyStrip req.domain),
            helmUninstallCmd (nsOf req store_id) (nsOf req store_id),
            nsDeleteCmd (nsOf req store_id)]⟩) := by
  simp only [create_store, ingress_host_exists, run_command]
  rw [if_neg (by simp [hn, hd])]
  simp [hc, h1, h2, h3, recOf, nsOf, valuesFileOf]

theorem createRun_success (p : Paths) (req : StoreRequest)
    (store_id created_at root_pw user_pw : String)
    (parse : String → Option Json) (stores : Stores) (o : List CmdResult)
    (hn : pyLower (pyStrip req.store_name) ≠ "") (hd : pyStrip req.domain ≠ "")
    (hc : conflictCheck (pyStrip req.domain) parse (oracleAt o 0) = .ok none)
    (h1 : stepFails (oracleAt o 1) = false)
    (h2 : stepFails (oracleAt o 2) = false)
    (h3 : (oracleAt o 3).rc = 0) :
    create_store p req store_id created_at root_pw user_pw parse stores ⟨o, []⟩ =
      (.ok { recOf req store_id created_at with status := "Ready" },
       setStatus (putStore stores store_id (recOf req store_id created_at))
         store_id "Ready",
       ⟨o, [ingressListCmd, nsCreateCmd (nsOf req store_id),
            secretCreateCmd (nsOf req store_id) root_pw user_pw,
            helmInstallCmd p (nsOf req store_id) (nsOf req store_id)
              (valuesFileOf p req) (pyStrip req.domain)]⟩) := by
  simp only [create_store, ingress_host_exists, run_command]
  rw [if_neg (by simp [hn, hd])]
  simp [hc, h1, h2, h3, recOf, nsOf, valuesFileOf,
    getStore_setStatus_self, getStore_putStore_self]

/-! ### Run lemmas for `delete_store` -/

theorem deleteRun_unknown (store_id : String) (stores : Stores) (s : ExecState)
    (h : getStore stores store_id = none) :
    delete_store store_id stores s = (.notFound, stores, s) := by
  simp only [delete_store, h]

theorem deleteRun_known (store_id : String) (stores : Stores) (o : List CmdResult)
    (meta : StoreRecord) (h : getStore stores store_id = some meta) :
    delete_store store_id stores ⟨o, []⟩ =
      ((if (oracleAt o 0).rc ≠ 0 then
          .uninstallError (pyTake (pyOr (oracleAt o 0).stderr (oracleAt o 0).stdout) 1000)
            (oracleAt o 1).rc (pyTake (oracleAt o 1).stdout 1000)
            (pyTake (oracleAt o 1).stderr 1000)
        else .deleted meta.helm_release meta.ns),
       delStore stores store_id,
       ⟨o, [helmUninstallCmd meta.helm_release meta.ns, nsDeleteCmd meta.ns]⟩) := by
  simp only [delete_store, h, run_command]
  by_cases hrc : (oracleAt o 0).rc ≠ 0
  · simp [hrc]
  · simp [hrc]

/-! ### Conflict-checker lemmas -/

theorem conflictCheck_callFailed (host : String) (parse : String → Option Json)
    (r : CmdResult) (h : r.rc ≠ 0 ∨ r.stdout = "") :
    conflictCheck host parse r = .ok none := by
  simp only [conflictCheck]
  rw [if_pos h]

theorem conflictCheck_parseFailed (host : String) (parse : String → Option Json)
    (r : CmdResult) (h : parse r.stdout = none) :
    conflictCheck host parse r = .ok none := by
  by_cases hr : r.rc ≠ 0 ∨ r.stdout = ""
  · simp only [conflictCheck]
    rw [if_pos hr]
  · simp only [conflictCheck]
    rw [if_neg hr, h]

theorem pyGetD_encodeItem_metadata (it : RouteItem) :
    pyGetD (encodeItem it) "metadata" (.obj [])
      = .ok (.obj [("namespace", .str it.ns), ("name", .str it.name)]) := rfl

theorem pyGetD_encodeItem_spec (it : RouteItem) :
    pyGetD (encodeItem it) "spec" (.obj [])
      = .ok (.obj [("rules", .arr (it.rules.map encodeRule))]) := rfl

theorem pyGetD_md_namespace (a b : String) :
    pyGetD (.obj [("namespace", .str a), ("name", .str b)]) "namespace" (.str "")
      = .ok (.str a) := rfl

theorem pyGetD_md_name (a b : String) :
    pyGetD (.obj [("namespace", .str a), ("name", .str b)]) "name" (.str "")
      = .ok (.str b) := rfl

theorem pyGetD_sp_rules (l : List Json) :
    pyGetD (.obj [("rules", .arr l)]) "rules" (.arr []) = .ok (.arr l) := rfl

theorem ifTruthy_arr (l : List Json) :
    (if pyTruthy (.arr l) then Json.arr l else .arr []) = .arr l := by
  cases l <;> simp [pyTruthy]

theorem scanRules_encode (host : String) (ns name : Json) (rules : List RouteRule) :
    scanRules host ns name (rules.map encodeRule)
      = .ok (if rules.any (fun r => r.host == some host) then some ⟨ns, name⟩
             else none) := by
  induction rules with
  | nil => simp [scanRules]
  | cons r rest ih =>
    cases hr : r.host with
    | none =>
      simp [scanRules, encodeRule, hr, pyGetD, pyEqStr, List.find?, ih]
    | some h =>
      by_cases hh : h = host
      · simp [scanRules, encodeRule, hr, pyGetD, pyEqStr, List.find?, hh]
      · simp [scanRules, encodeRule, hr, pyGetD, pyEqStr, List.find?, hh, ih]

theorem scanItems_encode (host : String) (items : List RouteItem) :
    scanItems host (items.map encodeItem) = .ok (firstMatch items host) := by
  induction items with
  | nil => rfl
  | cons it rest ih =>
    simp only [List.map_cons, scanItems, pyGetD_encodeItem_metadata,
      pyGetD_encodeItem_spec, pyGetD_md_namespace, pyGetD_md_name,
      pyGetD_sp_rules, ifTruthy_arr, pyIter, scanRules_encode]
    by_cases hm : it.rules.any (fun r => r.host == some host)
    · simp [hm, firstMatch]
    · simp [hm, firstMatch, ih]

theorem conflictCheck_wellFormed (host : String) (parse : String → Option Json)
    (r : CmdResult) (items : List RouteItem)
    (h0 : r.rc = 0) (h1 : r.stdout ≠ "")
    (hp : parse r.stdout = some (encodeListing items)) :
    conflictCheck host parse r = .ok (firstMatch items host) := by
  simp only [conflictCheck]
  rw [if_neg (by simp [h0, h1]), hp]
  simp [encodeListing, pyGetD, List.find?, pyIter, scanItems_encode]

/-! ### Truncation bound -/

theorem pyTake_length_le (s : String) (n : Nat) : (pyTake s n).length ≤ n := by
  simp only [pyTake, String.length]
  simp [List.length_take]

/-! ### The shape of the registry after a provision call -/

theorem create_store_stores_shape (p : Paths) (req : StoreRequest)
    (store_id created_at root_pw user_pw : String)
    (parse : String → Option Json) (stores : Stores) (o : List CmdResult)
    (hn : pyLower (pyStrip req.store_name) ≠ "") (hd : pyStrip req.domain ≠ "") :
    (create_store p req store_id created_at root_pw user_pw parse stores ⟨o, []⟩).2.1
        = putStore stores store_id (recOf req store_id created_at) ∨
    ∃ st, (create_store p req store_id created_at root_pw user_pw parse stores ⟨o, []⟩).2.1
        = setStatus (putStore stores store_id (recOf req store_id created_at))
            store_id st := by
  cases hcc : conflictCheck (pyStrip req.domain) parse (oracleAt o 0) with
  | error e =>
    left
    rw [createRun_raised p req store_id created_at root_pw user_pw parse stores o hn hd e hcc]
  | ok oc =>
    cases oc with
    | some c =>
      right
      exact ⟨"Failed", by
        rw [createRun_conflict p req store_id created_at root_pw user_pw parse stores o hn hd c hcc]⟩
    | none =>
      by_cases h1 : stepFails (oracleAt o 1) = true
      · right
        exact ⟨"Failed", by
          rw [createRun_nsFail p req store_id created_at root_pw user_pw parse stores o hn hd hcc h1]⟩
      · have h1f : stepFails (oracleAt o 1) = false := by rwa [Bool.not_eq_true] at h1
        by_cases h2 : stepFails (oracleAt o 2) = true
        · right
          exact ⟨"Failed", by
            rw [createRun_secretFail p req store_id created_at root_pw user_pw parse stores o hn hd hcc h1f h2]⟩
        · have h2f : stepFails (oracleAt o 2) = false := by rwa [Bool.not_eq_true] at h2
          by_cases h3 : (oracleAt o 3).rc = 0
          · right
            exact ⟨"Ready", by
              rw [createRun_success p req store_id created_at root_pw user_pw parse stores o hn hd hcc h1f h2f h3]⟩
          · right
            exact ⟨"Failed", by
              rw [createRun_helmFail p req store_id created_at root_pw user_pw parse stores o hn hd hcc h1f h2f h3]⟩

/-! ### Claim theorems -/

/-- C1: in every provision run where the conflict check passes (reports
no conflict) and the namespace and secret steps are treated as success
but the chart installation returns non-zero, `create_store` issues
exactly one release-uninstall attempt and then exactly one
namespace-delete attempt — the final two trace entries, in that order,
issued for every possible outcome of the cleanup calls themselves — and
only afterwards marks the record Failed and returns the 500
provisioning-failure error. -/
theorem claimC1_helm_fail_rollback (p : Paths) (req : StoreRequest)
    (store_id created_at root_pw user_pw : String)
    (parse : String → Option Json) (stores : Stores) (o : List CmdResult)
    (hn : pyLower (pyStrip req.store_name) ≠ "") (hd : pyStrip req.domain ≠ "")
    (hc : conflictCheck (pyStrip req.domain) parse (oracleAt o 0) = .ok none)
    (h1 : stepFails (oracleAt o 1) = false)
    (h2 : stepFails (oracleAt o 2) = false)
    (h3 : (oracleAt o 3).rc ≠ 0) :
    create_store p req store_id created_at root_pw user_pw parse stores ⟨o, []⟩ =
      (.httpError 500 ("helm install failed: "
          ++ pyTake (pyOr (oracleAt o 3).stderr (oracleAt o 3).stdout) 1000),
       setStatus (putStore stores store_id (recOf req store_id created_at))
         store_id "Failed",
       ⟨o, [ingressListCmd, nsCreateCmd (nsOf req store_id),
            secretCreateCmd (nsOf req store_id) root_pw user_pw,
            helmInstallCmd p (nsOf req store_id) (nsOf req store_id)
              (valuesFileOf p req) (pyStrip req.domain),
            helmUninstallCmd (nsOf req store_id) (nsOf req store_id),
            nsDeleteCmd (nsOf req store_id)]⟩) :=
  createRun_helmFail p req store_id created_at root_pw user_pw parse stores o
    hn hd hc h1 h2 h3

/-- C1 witness: a concrete run in which the install fails and both
cleanup calls fail too; the trace still ends with exactly one uninstall
followed by one namespace delete, and the record is Failed. -/
theorem claimC1_helm_fail_rollback_witness :
    create_store pC reqC "ab12cd34" "t0" "rp" "up" parseNone [] ⟨oHelmFail, []⟩ =
      (.httpError 500 "helm install failed: install boom",
       [("ab12cd34",
         ⟨"ab12cd34", "acme", "acme-ab12cd34", "shop1.example.com", "Failed",
          "acme-ab12cd34", "local", "t0"⟩)],
       ⟨oHelmFail,
        [ingressListCmd, nsCreateCmd "acme-ab12cd34",
         secretCreateCmd "acme-ab12cd34" "rp" "up",
         helmInstallCmd pC "acme-ab12cd34" "acme-ab12cd34"
           "/repo/values-local.yaml" "shop1.example.com",
         helmUninstallCmd "acme-ab12cd34" "acme-ab12cd34",
         nsDeleteCmd "acme-ab12cd34"]⟩) :=
  claimC1_helm_fail_rollback pC reqC "ab12cd34" "t0" "rp" "up" parseNone [] oHelmFail
    (by decide) (by decide) rfl (by decide) (by decide) (by decide)

/-- C2: in every provision run in which the conflict checker reports a
match for the requested domain, `create_store` marks the record Failed
and returns the 409 routing-conflict error, and the trace consists of
the single route-listing call: no namespace, secret or release operation
is invoked. -/
theorem claimC2_conflict_stops (p : Paths) (req : StoreRequest)
    (store_id created_at root_pw user_pw : String)
    (parse : String → Option Json) (stores : Stores) (o : List CmdResult)
    (hn : pyLower (pyStrip req.store_name) ≠ "") (hd : pyStrip req.domain ≠ "")
    (c : Conflict)
    (hc : conflictCheck (pyStrip req.domain) parse (oracleAt o 0) = .ok (some c)) :
    create_store p req store_id created_at root_pw user_pw parse stores ⟨o, []⟩ =
      (.httpError 409 ("ingress host conflict: host '" ++ pyStrip req.domain
          ++ "' already used in " ++ pyStr c.ns ++ "/" ++ pyStr c.ingress),
       setStatus (putStore stores store_id (recOf req store_id created_at))
         store_id "Failed",
       ⟨o, [ingressListCmd]⟩) :=
  createRun_conflict p req store_id created_at root_pw user_pw parse stores o
    hn hd c hc

/-- C2 witness: a concrete conflicting run returns 409, leaves the record
Failed, and invokes only the route-listing call. -/
theorem claimC2_conflict_stops_witness :
    create_store pC reqC2 "ef56ab78" "t1" "rp" "up" parseConflict [] ⟨oConflict, []⟩ =
      (.httpError 409
         "ingress host conflict: host 'shop2.example.com' already used in default/web",
       [("ef56ab78",
         ⟨"ef56ab78", "beta", "beta-ef56ab78", "shop2.example.com", "Failed",
          "beta-ef56ab78", "prod", "t1"⟩)],
       ⟨oConflict, [ingressListCmd]⟩) :=
  claimC2_conflict_stops pC reqC2 "ef56ab78" "t1" "rp" "up" parseConflict [] oConflict
    (by decide) (by decide) ⟨.str "default", .str "web"⟩ rfl

/-- C5: deprovisioning a known id always attempts release uninstall and
then namespace deletion, in that order; it removes the registry entry
whatever the two teardown results are; it returns the distinguished
partial-failure value (carrying both tools' captured output, truncated)
exactly when the uninstall failed, and the plain deleted value
otherwise. -/
theorem claimC5_deprovision_known (store_id : String) (stores : Stores)
    (o : List CmdResult) (meta : StoreRecord)
    (h : getStore stores store_id = some meta) :
    (delete_store store_id stores ⟨o, []⟩).2.2.calls
        = [helmUninstallCmd meta.helm_release meta.ns, nsDeleteCmd meta.ns] ∧
    (delete_store store_id stores ⟨o, []⟩).2.1 = delStore stores store_id ∧
    getStore (delete_store store_id stores ⟨o, []⟩).2.1 store_id = none ∧
    ((oracleAt o 0).rc ≠ 0 →
      (delete_store store_id stores ⟨o, []⟩).1
        = .uninstallError (pyTake (pyOr (oracleAt o 0).stderr (oracleAt o 0).stdout) 1000)
            (oracleAt o 1).rc (pyTake (oracleAt o 1).stdout 1000)
            (pyTake (oracleAt o 1).stderr 1000)) ∧
    ((oracleAt o 0).rc = 0 →
      (delete_store store_id stores ⟨o, []⟩).1 = .deleted meta.helm_release meta.ns) := by
  have hdel := deleteRun_known store_id stores o meta h
  refine ⟨?_, ?_, ?_, ?_, ?_⟩
  · rw [hdel]
  · rw [hdel]
  · rw [hdel]
    exact getStore_delStore_self stores store_id
  · intro hrc
    rw [hdel]
    simp only [if_pos hrc]
  · intro h0
    rw [hdel]
    simp [h0]

/-- C5 witness: deprovision of the known id "idA" with a failing
uninstall and a succeeding namespace delete issues both teardown calls in
order, removes the entry, and reports the partial failure. -/
theorem claimC5_deprovision_known_witness :
    (delete_store "idA" storesC ⟨oUninstallFail, []⟩).2.2.calls
        = [helmUninstallCmd "acme-idA" "acme-idA", nsDeleteCmd "acme-idA"] ∧
    (delete_store "idA" storesC ⟨oUninstallFail, []⟩).2.1 = [] ∧
    getStore (delete_store "idA" storesC ⟨oUninstallFail, []⟩).2.1 "idA" = none ∧
    (delete_store "idA" storesC ⟨oUninstallFail, []⟩).1
      = .uninstallError "release not loaded" 0 "namespace deleted" "" := by
  have h := claimC5_deprovision_known "idA" storesC oUninstallFail recC rfl
  exact ⟨h.1, h.2.1, h.2.2.1, h.2.2.2.1 (by decide)⟩

/-- C6: deprovisioning an id absent from the registry returns the
404 not-found error, invokes no external call (the execution state,
including the trace, is returned unchanged) and leaves the registry
unchanged. -/
theorem claimC6_deprovision_unknown (store_id : String) (stores : Stores)
    (s : ExecState) (h : getStore stores store_id = none) :
    delete_store store_id stores s = (.notFound, stores, s) :=
  deleteRun_unknown store_id stores s h

/-- C6 witness: deleting an unknown id from the one-entry registry. -/
theorem claimC6_deprovision_unknown_witness :
    delete_store "missing" storesC ⟨oUninstallFail, []⟩
      = (.notFound, storesC, ⟨oUninstallFail, []⟩) :=
  claimC6_deprovision_unknown "missing" storesC ⟨oUninstallFail, []⟩ rfl

/-- C4: for every valid provision request, the record stored under the
generated id has its namespace equal to the lowercased, stripped
store_name, a hyphen, and the generated id, and its helm_release equal
to that namespace — in every branch of the call. -/
theorem claimC4_derived_names (p : Paths) (req : StoreRequest)
    (store_id created_at root_pw user_pw : String)
    (parse : String → Option Json) (stores : Stores) (o : List CmdResult)
    (hn : pyLower (pyStrip req.store_name) ≠ "") (hd : pyStrip req.domain ≠ "") :
    ∃ rec, getStore (create_store p req store_id created_at root_pw user_pw parse
        stores ⟨o, []⟩).2.1 store_id = some rec ∧
      rec.ns = pyLower (pyStrip req.store_name) ++ "-" ++ store_id ∧
      rec.helm_release = rec.ns := by
  rcases create_store_stores_shape p req store_id created_at root_pw user_pw
      parse stores o hn hd with h | ⟨st, h⟩
  · refine ⟨recOf req store_id created_at, ?_, rfl, rfl⟩
    rw [h, getStore_putStore_self]
  · refine ⟨{ recOf req store_id created_at with status := st }, ?_, rfl, rfl⟩
    rw [h, getStore_setStatus_self, getStore_putStore_self]
    rfl

/-- C4 witness: the concrete failed run stores a record with namespace
and release both "acme-ab12cd34". -/
theorem claimC4_derived_names_witness :
    ∃ rec, getStore (create_store pC reqC "ab12cd34" "t0" "rp" "up" parseNone
        [] ⟨oHelmFail, []⟩).2.1 "ab12cd34" = some rec ∧
      rec.ns = "acme-ab12cd34" ∧ rec.helm_release = rec.ns :=
  claimC4_derived_names pC reqC "ab12cd34" "t0" "rp" "up" parseNone [] oHelmFail
    (by decide) (by decide)

/-- C9 amended: the generated id is an externally produced 8-character
uuid prefix and the code performs no freshness or overwrite check, so
pairwise-distinct ids are not guaranteed (see the counterexample for a
collision that silently overwrites).  What does hold: a provision call
never writes any registry key other than its own id, so whenever the
generated ids are pairwise distinct no insertion overwrites a record of
a different store. -/
theorem claimC9_no_cross_overwrite (p : Paths) (req : StoreRequest)
    (store_id created_at root_pw user_pw : String)
    (parse : String → Option Json) (stores : Stores) (o : List CmdResult)
    (hn : pyLower (pyStrip req.store_name) ≠ "") (hd : pyStrip req.domain ≠ "")
    (k : String) (hk : k ≠ store_id) :
    getStore (create_store p req store_id created_at root_pw user_pw parse
        stores ⟨o, []⟩).2.1 k = getStore stores k := by
  rcases create_store_stores_shape p req store_id created_at root_pw user_pw
      parse stores o hn hd with h | ⟨st, h⟩
  · rw [h, getStore_putStore_ne stores store_id k (recOf req store_id created_at) hk]
  · rw [h,
      getStore_setStatus_ne (putStore stores store_id (recOf req store_id created_at))
        store_id k st hk,
      getStore_putStore_ne stores store_id k (recOf req store_id created_at) hk]

/-- C9 witness: a provision call with id "dup00001" leaves the entry at a
different key "other001" untouched. -/
theorem claimC9_no_cross_overwrite_witness :
    getStore (create_store pC reqAlpha "dup00001" "t0" "rp" "up" parseNone
        [("other001", recC)] ⟨oAllOk, []⟩).2.1 "other001" = some recC := by
  have h := claimC9_no_cross_overwrite pC reqAlpha "dup00001" "t0" "rp" "up"
    parseNone [("other001", recC)] oAllOk (by decide) (by decide)
    "other001" (by decide)
  rw [h]
  rfl

/-- C9 counterexample: the code does not prevent id reuse.  Two
successful provision calls that receive the same truncated-uuid value
"dup00001" — one for store "alpha", one for store "beta" — leave a
single registry entry: the insertion of the second call overwrote the
record of the first (different) store, refuting "no id is ever reused,
so no registry insertion ever overwrites an existing record for a
different store" as a guarantee of the code. -/
theorem claimC9_counterexample :
    (create_store pC reqAlpha "dup00001" "t0" "rp" "up" parseNone []
        ⟨oAllOk, []⟩).2.1
      = [("dup00001",
          ⟨"dup00001", "alpha", "alpha-dup00001", "alpha.example.com", "Ready",
           "alpha-dup00001", "local", "t0"⟩)] ∧
    (create_store pC reqBeta "dup00001" "t1" "rp" "up" parseNone
        (create_store pC reqAlpha "dup00001" "t0" "rp" "up" parseNone []
          ⟨oAllOk, []⟩).2.1
        ⟨oAllOk, []⟩).2.1
      = [("dup00001",
          ⟨"dup00001", "beta", "beta-dup00001", "beta.example.com", "Ready",
           "beta-dup00001", "local", "t1"⟩)] :=
  ⟨rfl, rfl⟩

/-- C10: the environment field is stripped and lowercased at the top of
the call: the normalized form is what the record stores, and in every
run reaching the install step the helm command carries the local values
file exactly when the normalized environment equals "local", the
production values file for every other value. -/
theorem claimC10_environment (p : Paths) (req : StoreRequest)
    (store_id created_at root_pw user_pw : String)
    (parse : String → Option Json) (stores : Stores) (o : List CmdResult)
    (hn : pyLower (pyStrip req.store_name) ≠ "") (hd : pyStrip req.domain ≠ "") :
    (∃ rec, getStore (create_store p req store_id created_at root_pw user_pw parse
        stores ⟨o, []⟩).2.1 store_id = some rec ∧
      rec.environment = pyLower (pyStrip req.environment)) ∧
    (conflictCheck (pyStrip req.domain) parse (oracleAt o 0) = .ok none →
     stepFails (oracleAt o 1) = false → stepFails (oracleAt o 2) = false →
     pyLower (pyStrip req.environment) = "local" →
       (create_store p req store_id created_at root_pw user_pw parse stores
           ⟨o, []⟩).2.2.calls.getD 3 []
         = helmInstallCmd p (nsOf req store_id) (nsOf req store_id)
             p.values_local (pyStrip req.domain)) ∧
    (conflictCheck (pyStrip req.domain) parse (oracleAt o 0) = .ok none →
     stepFails (oracleAt o 1) = false → stepFails (oracleAt o 2) = false →
     pyLower (pyStrip req.environment) ≠ "local" →
       (create_store p req store_id created_at root_pw user_pw parse stores
           ⟨o, []⟩).2.2.calls.getD 3 []
         = helmInstallCmd p (nsOf req store_id) (nsOf req store_id)
             p.values_prod (pyStrip req.domain)) := by
  refine ⟨?_, ?_, ?_⟩
  · rcases create_store_stores_shape p req store_id created_at root_pw user_pw
        parse stores o hn hd with h | ⟨st, h⟩
    · refine ⟨recOf req store_id created_at, ?_, rfl⟩
      rw [h, getStore_putStore_self]
    · refine ⟨{ recOf req store_id created_at with status := st }, ?_, rfl⟩
      rw [h, getStore_setStatus_self, getStore_putStore_self]
      rfl
  · intro hc h1 h2 hl
    by_cases h3 : (oracleAt o 3).rc = 0
    · rw [createRun_success p req store_id created_at root_pw user_pw parse
        stores o hn hd hc h1 h2 h3]
      simp [valuesFileOf, hl]
    · rw [createRun_helmFail p req store_id created_at root_pw user_pw parse
        stores o hn hd hc h1 h2 h3]
      simp [valuesFileOf, hl]
  · intro hc h1 h2 hl
    by_cases h3 : (oracleAt o 3).rc = 0
    · rw [createRun_success p req store_id created_at root_pw user_pw parse
        stores o hn hd hc h1 h2 h3]
      simp [valuesFileOf, hl]
    · rw [createRun_helmFail p req store_id created_at root_pw user_pw parse
        stores o hn hd hc h1 h2 h3]
      simp [valuesFileOf, hl]

/-- C10 witness: " PROD " normalizes to "prod" and selects the production
values file; reqC's "local" selects the local one; the stored record
carries the normalized environment. -/
theorem claimC10_environment_witness :
    (∃ rec, getStore (create_store pC reqProd "id10" "t" "rp" "up" parseNone []
        ⟨oAllOk, []⟩).2.1 "id10" = some rec ∧ rec.environment = "prod") ∧
    (create_store pC reqC "id11" "t" "rp" "up" parseNone []
        ⟨oHelmFail, []⟩).2.2.calls.getD 3 []
      = helmInstallCmd pC "acme-id11" "acme-id11" "/repo/values-local.yaml"
          "shop1.example.com" ∧
    (create_store pC reqProd "id10" "t" "rp" "up" parseNone []
        ⟨oAllOk, []⟩).2.2.calls.getD 3 []
      = helmInstallCmd pC "gamma-id10" "gamma-id10" "/repo/values-prod.yaml"
          "shop3.example.com" := by
  refine ⟨?_, ?_, ?_⟩
  · obtain ⟨rec, hg, he⟩ := (claimC10_environment pC reqProd "id10" "t" "rp" "up"
      parseNone [] oAllOk (by decide) (by decide)).1
    exact ⟨rec, hg, he.trans rfl⟩
  · exact (claimC10_environment pC reqC "id11" "t" "rp" "up" parseNone []
      oHelmFail (by decide) (by decide)).2.1 rfl (by decide) (by decide) rfl
  · exact (claimC10_environment pC reqProd "id10" "t" "rp" "up" parseNone []
      oAllOk (by decide) (by decide)).2.2 rfl (by decide) (by decide) (by decide)

/-- C3 amended: a namespace/secret creation step returning non-zero exit
is treated as success exactly when "already exists" occurs
case-insensitively in the value of Python `stderr or stdout` — stderr
when stderr is non-empty, stdout otherwise — not in the combined
stdout+stderr output.  Benign failures continue to the next step (the
next command appears in the trace); all other non-zero results mark the
record Failed and return the 500 error echoing that same `stderr or
stdout` value. -/
theorem claimC3_err_or_out (p : Paths) (req : StoreRequest)
    (store_id created_at root_pw user_pw : String)
    (parse : String → Option Json) (stores : Stores) (o : List CmdResult)
    (hn : pyLower (pyStrip req.store_name) ≠ "") (hd : pyStrip req.domain ≠ "")
    (hc : conflictCheck (pyStrip req.domain) parse (oracleAt o 0) = .ok none) :
    ((oracleAt o 1).rc ≠ 0 →
     containsAE (pyOr (oracleAt o 1).stderr (oracleAt o 1).stdout) = true →
       (create_store p req store_id created_at root_pw user_pw parse stores
           ⟨o, []⟩).2.2.calls.getD 2 []
         = secretCreateCmd (nsOf req store_id) root_pw user_pw) ∧
    ((oracleAt o 1).rc ≠ 0 →
     containsAE (pyOr (oracleAt o 1).stderr (oracleAt o 1).stdout) = false →
       (create_store p req store_id created_at root_pw user_pw parse stores
           ⟨o, []⟩).1
         = .httpError 500 ("Namespace creation failed: "
             ++ pyOr (oracleAt o 1).stderr (oracleAt o 1).stdout) ∧
       getStore (create_store p req store_id created_at root_pw user_pw parse
           stores ⟨o, []⟩).2.1 store_id
         = some { recOf req store_id created_at with status := "Failed" }) ∧
    (stepFails (oracleAt o 1) = false → (oracleAt o 2).rc ≠ 0 →
     containsAE (pyOr (oracleAt o 2).stderr (oracleAt o 2).stdout) = true →
       (create_store p req store_id created_at root_pw user_pw parse stores
           ⟨o, []⟩).2.2.calls.getD 3 []
         = helmInstallCmd p (nsOf req store_id) (nsOf req store_id)
             (valuesFileOf p req) (pyStrip req.domain)) ∧
    (stepFails (oracleAt o 1) = false → (oracleAt o 2).rc ≠ 0 →
     containsAE (pyOr (oracleAt o 2).stderr (oracleAt o 2).stdout) = false →
       (create_store p req store_id created_at root_pw user_pw parse stores
           ⟨o, []⟩).1
         = .httpError 500 ("Secret creation failed: "
             ++ pyOr (oracleAt o 2).stderr (oracleAt o 2).stdout) ∧
       getStore (create_store p req store_id created_at root_pw user_pw parse
           stores ⟨o, []⟩).2.1 store_id
         = some { recOf req store_id created_at with status := "Failed" }) := by
  refine ⟨?_, ?_, ?_, ?_⟩
  · intro hrc hae
    have h1f : stepFails (oracleAt o 1) = false := by
      simp [stepFails, hae]
    by_cases h2 : stepFails (oracleAt o 2) = true
    · rw [createRun_secretFail p req store_id created_at root_pw user_pw parse
        stores o hn hd hc h1f h2]
      rfl
    · have h2f : stepFails (oracleAt o 2) = false := by
        rwa [Bool.not_eq_true] at h2
      by_cases h3 : (oracleAt o 3).rc = 0
      · rw [createRun_success p req store_id created_at root_pw user_pw parse
          stores o hn hd hc h1f h2f h3]
        rfl
      · rw [createRun_helmFail p req store_id created_at root_pw user_pw parse
          stores o hn hd hc h1f h2f h3]
        rfl
  · intro hrc hae
    have h1t : stepFails (oracleAt o 1) = true := by
      simp [stepFails, hae, hrc]
    have hrun := createRun_nsFail p req store_id created_at root_pw user_pw
      parse stores o hn hd hc h1t
    constructor
    · rw [hrun]
    · rw [hrun, getStore_setStatus_self, getStore_putStore_self]
      rfl
  · intro h1f hrc hae
    have h2f : stepFails (oracleAt o 2) = false := by
      simp [stepFails, hae]
    by_cases h3 : (oracleAt o 3).rc = 0
    · rw [createRun_success p req store_id created_at root_pw user_pw parse
        stores o hn hd hc h1f h2f h3]
      rfl
    · rw [createRun_helmFail p req store_id created_at root_pw user_pw parse
        stores o hn hd hc h1f h2f h3]
      rfl
  · intro h1f hrc hae
    have h2t : stepFails (oracleAt o 2) = true := by
      simp [stepFails, hae, hrc]
    have hrun := createRun_secretFail p req store_id created_at root_pw user_pw
      parse stores o hn hd hc h1f h2t
    constructor
    · rw [hrun]
    · rw [hrun, getStore_setStatus_self, getStore_putStore_self]
      rfl

/-- C3 counterexample: the namespace creation exits non-zero with
"already exists" in the combined captured output (it occurs on stdout),
yet because stderr is non-empty and lacks the marker, the code fails the
step: the claim's "anywhere in the combined stdout and stderr" reading
is false of `err or out`. -/
theorem claimC3_counterexample :
    (create_store pC reqC "id3" "t0" "rp" "up" parseNone [] ⟨oCombined, []⟩).1
      = .httpError 500 "Namespace creation failed: permission denied" ∧
    containsAE ((oracleAt oCombined 1).stdout ++ (oracleAt oCombined 1).stderr)
      = true ∧
    containsAE (oracleAt oCombined 1).stdout = true ∧
    containsAE (oracleAt oCombined 1).stderr = false ∧
    (oracleAt oCombined 1).rc ≠ 0 :=
  ⟨rfl, by decide, by decide, by decide, by decide⟩

/-- C3 witness: the four amended behaviours at concrete runs — benign
namespace failure continues to the secret step, hard namespace failure
returns the namespace 500; benign secret failure continues to the
install step, hard secret failure returns the secret 500. -/
theorem claimC3_err_or_out_witness :
    (create_store pC reqC "w3a" "t" "rp" "up" parseNone []
        ⟨oNsBenign, []⟩).2.2.calls.getD 2 []
      = secretCreateCmd "acme-w3a" "rp" "up" ∧
    (create_store pC reqC "w3b" "t" "rp" "up" parseNone [] ⟨oCombined, []⟩).1
      = .httpError 500 "Namespace creation failed: permission denied" ∧
    (create_store pC reqC "w3c" "t" "rp" "up" parseNone []
        ⟨oSecretBenign, []⟩).2.2.calls.getD 3 []
      = helmInstallCmd pC "acme-w3c" "acme-w3c" "/repo/values-local.yaml"
          "shop1.example.com" ∧
    (create_store pC reqC "w3d" "t" "rp" "up" parseNone [] ⟨oSecretFail, []⟩).1
      = .httpError 500 "Secret creation failed: secret boom" := by
  refine ⟨?_, ?_, ?_, ?_⟩
  · exact (claimC3_err_or_out pC reqC "w3a" "t" "rp" "up" parseNone [] oNsBenign
      (by decide) (by decide) rfl).1 (by decide) (by decide)
  · exact ((claimC3_err_or_out pC reqC "w3b" "t" "rp" "up" parseNone [] oCombined
      (by decide) (by decide) rfl).2.1 (by decide) (by decide)).1
  · exact (claimC3_err_or_out pC reqC "w3c" "t" "rp" "up" parseNone [] oSecretBenign
      (by decide) (by decide) rfl).2.2.1 (by decide) (by decide) (by decide)
  · exact ((claimC3_err_or_out pC reqC "w3d" "t" "rp" "up" parseNone [] oSecretFail
      (by decide) (by decide) rfl).2.2.2 (by decide) (by decide) (by decide)).1

/-- C7 amended: the conflict checker returns "no conflict" when the
listing call fails (non-zero exit or empty output) or when its output is
not valid json (the parse raises); on a well-formed listing it returns
the first item having a rule whose host equals the query exactly and
case-sensitively, or none.  However, output that is valid json of an
unexpected top-level shape makes the checker raise instead of returning
"no conflict" (see the counterexample). -/
theorem claimC7_checker_semantics :
    (∀ (host : String) (parse : String → Option Json) (r : CmdResult),
       r.rc ≠ 0 ∨ r.stdout = "" → conflictCheck host parse r = .ok none) ∧
    (∀ (host : String) (parse : String → Option Json) (r : CmdResult),
       parse r.stdout = none → conflictCheck host parse r = .ok none) ∧
    (∀ (host : String) (parse : String → Option Json) (r : CmdResult)
       (items : List RouteItem),
       r.rc = 0 → r.stdout ≠ "" → parse r.stdout = some (encodeListing items) →
       conflictCheck host parse r = .ok (firstMatch items host)) :=
  ⟨conflictCheck_callFailed, conflictCheck_parseFailed,
   fun host parse r items h0 h1 hp =>
     conflictCheck_wellFormed host parse r items h0 h1 hp⟩

/-- C7 witness: a failed listing call and an unparsable output both yield
"no conflict"; a well-formed one-item listing claiming the queried host
yields that item as the first (and only) match. -/
theorem claimC7_checker_semantics_witness :
    conflictCheck "h" parseNone ⟨1, "x", ""⟩ = .ok none ∧
    conflictCheck "h" parseNone ⟨0, "not json", ""⟩ = .ok none ∧
    conflictCheck "shop2.example.com" parseConflict ⟨0, "LIST", ""⟩
      = .ok (some ⟨.str "default", .str "web"⟩) := by
  refine ⟨?_, ?_, ?_⟩
  · exact claimC7_checker_semantics.1 "h" parseNone ⟨1, "x", ""⟩ (Or.inl (by decide))
  · exact claimC7_checker_semantics.2.1 "h" parseNone ⟨0, "not json", ""⟩ rfl
  · exact claimC7_checker_semantics.2.2 "shop2.example.com" parseConflict
      ⟨0, "LIST", ""⟩ [⟨"default", "web", [⟨some "shop2.example.com"⟩]⟩]
      rfl (by decide) rfl

/-- C7 counterexample: "[1, 2, 3]" is data that cannot be parsed as the
expected structured listing, yet the checker does not return "no
conflict": `payload.get("items", [])` on the decoded list raises
`AttributeError`, which escapes `ingress_host_exists` and the whole
provision call (FastAPI would surface it as a generic 500). -/
theorem claimC7_counterexample :
    conflictCheck "shop1.example.com" parseArr ⟨0, "[1, 2, 3]", ""⟩
      = .error .attributeError ∧
    (create_store pC reqC "id7" "t" "rp" "up" parseArr []
        ⟨[⟨0, "[1, 2, 3]", ""⟩], []⟩).1
      = .raised .attributeError :=
  ⟨rfl, rfl⟩

/-- C8 amended: the release-install failure detail and all three echoed
fields of the deprovision partial-failure result are truncated to at
most 1000 characters of tool output; the namespace-creation and
secret-creation failure details, by contrast, echo the full `stderr or
stdout` value with no truncation (the counterexample exhibits a
1001-character echo). -/
theorem claimC8_truncation :
    (∀ (p : Paths) (req : StoreRequest)
       (store_id created_at root_pw user_pw : String)
       (parse : String → Option Json) (stores : Stores) (o : List CmdResult),
       pyLower (pyStrip req.store_name) ≠ "" → pyStrip req.domain ≠ "" →
       conflictCheck (pyStrip req.domain) parse (oracleAt o 0) = .ok none →
       stepFails (oracleAt o 1) = false → stepFails (oracleAt o 2) = false →
       (oracleAt o 3).rc ≠ 0 →
       (create_store p req store_id created_at root_pw user_pw parse stores
           ⟨o, []⟩).1
         = .httpError 500 ("helm install failed: "
             ++ pyTake (pyOr (oracleAt o 3).stderr (oracleAt o 3).stdout) 1000) ∧
       (pyTake (pyOr (oracleAt o 3).stderr (oracleAt o 3).stdout) 1000).length
         ≤ 1000) ∧
    (∀ (store_id : String) (stores : Stores) (o : List CmdResult)
       (meta : StoreRecord),
       getStore stores store_id = some meta → (oracleAt o 0).rc ≠ 0 →
       (delete_store store_id stores ⟨o, []⟩).1
         = .uninstallError
             (pyTake (pyOr (oracleAt o 0).stderr (oracleAt o 0).stdout) 1000)
             (oracleAt o 1).rc (pyTake (oracleAt o 1).stdout 1000)
             (pyTake (oracleAt o 1).stderr 1000) ∧
       (pyTake (pyOr (oracleAt o 0).stderr (oracleAt o 0).stdout) 1000).length
         ≤ 1000 ∧
       (pyTake (oracleAt o 1).stdout 1000).length ≤ 1000 ∧
       (pyTake (oracleAt o 1).stderr 1000).length ≤ 1000) ∧
    (∀ (p : Paths) (req : StoreRequest)
       (store_id created_at root_pw user_pw : String)
       (parse : String → Option Json) (stores : Stores) (o : List CmdResult),
       pyLower (pyStrip req.store_name) ≠ "" → pyStrip req.domain ≠ "" →
       conflictCheck (pyStrip req.domain) parse (oracleAt o 0) = .ok none →
       stepFails (oracleAt o 1) = true →
       (create_store p req store_id created_at root_pw user_pw parse stores
           ⟨o, []⟩).1
         = .httpError 500 ("Namespace creation failed: "
             ++ pyOr (oracleAt o 1).stderr (oracleAt o 1).stdout)) ∧
    (∀ (p : Paths) (req : StoreRequest)
       (store_id created_at root_pw user_pw : String)
       (parse : String → Option Json) (stores : Stores) (o : List CmdResult),
       pyLower (pyStrip req.store_name) ≠ "" → pyStrip req.domain ≠ "" →
       conflictCheck (pyStrip req.domain) parse (oracleAt o 0) = .ok none →
       stepFails (oracleAt o 1) = false → stepFails (oracleAt o 2) = true →
       (create_store p req store_id created_at root_pw user_pw parse stores
           ⟨o, []⟩).1
         = .httpError 500 ("Secret creation failed: "
             ++ pyOr (oracleAt o 2).stderr (oracleAt o 2).stdout)) := by
  refine ⟨?_, ?_, ?_, ?_⟩
  · intro p req store_id created_at root_pw user_pw parse stores o hn hd hc h1 h2 h3
    constructor
    · rw [createRun_helmFail p req store_id created_at root_pw user_pw parse
        stores o hn hd hc h1 h2 h3]
    · exact pyTake_length_le _ 1000
  · intro store_id stores o meta h hrc
    have hdel := deleteRun_known store_id stores o meta h
    refine ⟨?_, pyTake_length_le _ 1000, pyTake_length_le _ 1000,
      pyTake_length_le _ 1000⟩
    rw [hdel]
    simp only [if_pos hrc]
  · intro p req store_id created_at root_pw user_pw parse stores o hn hd hc h1
    rw [createRun_nsFail p req store_id created_at root_pw user_pw parse
      stores o hn hd hc h1]
  · intro p req store_id created_at root_pw user_pw parse stores o hn hd hc h1 h2
    rw [createRun_secretFail p req store_id created_at root_pw user_pw parse
      stores o hn hd hc h1 h2]

/-- C8 witness: concrete instances of the four amended behaviours —
truncated install-failure detail, truncated partial-failure fields, and
the untruncated namespace- and secret-failure details. -/
theorem claimC8_truncation_witness :
    (create_store pC reqC "w8a" "t" "rp" "up" parseNone [] ⟨oHelmFail, []⟩).1
      = .httpError 500 "helm install failed: install boom" ∧
    ("install boom" : String).length ≤ 1000 ∧
    (delete_store "idA" storesC ⟨oUninstallFail, []⟩).1
      = .uninstallError "release not loaded" 0 "namespace deleted" "" ∧
    (create_store pC reqC "w8b" "t" "rp" "up" parseNone [] ⟨oCombined, []⟩).1
      = .httpError 500 "Namespace creation failed: permission denied" ∧
    (create_store pC reqC "w8c" "t" "rp" "up" parseNone [] ⟨oSecretFail, []⟩).1
      = .httpError 500 "Secret creation failed: secret boom" := by
  have h1 := claimC8_truncation.1 pC reqC "w8a" "t" "rp" "up" parseNone []
    oHelmFail (by decide) (by decide) rfl (by decide) (by decide) (by decide)
  have h2 := claimC8_truncation.2.1 "idA" storesC oUninstallFail recC rfl
    (by decide)
  have h3 := claimC8_truncation.2.2.1 pC reqC "w8b" "t" "rp" "up" parseNone []
    oCombined (by decide) (by decide) rfl (by decide)
  have h4 := claimC8_truncation.2.2.2 pC reqC "w8c" "t" "rp" "up" parseNone []
    oSecretFail (by decide) (by decide) rfl (by decide) (by decide)
  exact ⟨h1.1, h1.2, h2.1, h3, h4⟩

set_option maxRecDepth 40000 in
/-- C8 counterexample: at these inputs the namespace-creation and the
secret-creation failure details each echo a 1001-character stderr in
full — no 1000-character truncation is applied on either path. -/
theorem claimC8_counterexample :
    (create_store pC reqC "id8" "t" "rp" "up" parseNone [] ⟨oBigErr, []⟩).1
      = .httpError 500 ("Namespace creation failed: " ++ bigErr) ∧
    (create_store pC reqC "id8s" "t" "rp" "up" parseNone []
        ⟨oBigErrSecret, []⟩).1
      = .httpError 500 ("Secret creation failed: " ++ bigErr) ∧
    bigErr.length = 1001 := by
  refine ⟨?_, ?_, ?_⟩
  · have h1t : stepFails (oracleAt oBigErr 1) = true := by decide
    rw [createRun_nsFail pC reqC "id8" "t" "rp" "up" parseNone [] oBigErr
      (by decide) (by decide) rfl h1t]
    rfl
  · have h2t : stepFails (oracleAt oBigErrSecret 2) = true := by decide
    rw [createRun_secretFail pC reqC "id8s" "t" "rp" "up" parseNone []
      oBigErrSecret (by decide) (by decide) rfl (by decide) h2t]
    rfl
  · rw [show bigErr.length = (List.replicate 1001 'x').length from rfl,
      List.length_replicate]
